import Mathlib

/-!
Verification of the password-hashing core of the matrix-authentication-service
repository (crates/handlers/src/passwords.rs).

The embedding follows the source file closely:

* `Algorithm`, `Hasher`, `InnerPasswordManager`, `PasswordManager` mirror the
  Rust types of the same names.
* Raw password and pepper byte buffers are `List Nat` (bytes).
* The external cryptographic libraries (the `bcrypt`, `argon2` and `pbkdf2`
  crates) are modelled as ideal primitives: an encoded hash is a
  self-describing value (`EncodedHash`) recording the algorithm tag, the salt
  drawn from the randomness source, and the keyed material exactly as the
  source feeds it to the library (password ++ pepper for bcrypt and pbkdf2,
  password with the pepper as a separate secret key for argon2id), and the
  library verify succeeds exactly when re-deriving from the same material
  matches.  Randomness sources are modelled as seeds (`Nat`).
* Every operation returns its result paired with a trace of the cryptographic
  primitive invocations it performed (`WorkEvent`), so that statements of the
  form "performs no cryptographic work" are expressible.
* The embedding is pure: operations take the manager as a plain value and
  return only a result and a trace, mirroring the fact that the Rust methods
  take `&self` and never mutate the configuration.
-/

/-- Raw byte buffers (passwords, peppers). -/
abbrev Bytes := List Nat

/-- Mirrors `pub type SchemeVersion = u16`.  The numeric bound of `u16` is
irrelevant to every property below, so versions are plain naturals. -/
abbrev SchemeVersion := Nat

/-- The error taxonomy of the core.  In the source every operation returns
`anyhow::Error`; the constructors here name the distinguished failure
conditions the source produces (`PasswordManagerDisabledError`, the
"Hashing scheme not found" context, the verification failures of the three
libraries including the "wrong password" ensure, the construction failure on
an empty iterator, and an unexpected cryptographic-library failure). -/
inductive PasswordError
  | managerDisabled
  | schemeNotFound
  | verificationFailed
  | constructionError
  | cryptoFailure
deriving DecidableEq, Repr

deriving instance DecidableEq for Except

/-- Mirrors the `Algorithm` enum of the source: three closed variants. -/
inductive Algorithm
  | bcrypt (cost : Option Nat)
  | argon2id
  | pbkdf2
deriving DecidableEq, Repr

/-- One invocation of a cryptographic or estimator primitive.  `hashOp` is one
call into a library password-hashing function, `verifyOp` one call into a
library verification function, `complexityOp` one call into the zxcvbn
estimator. -/
inductive WorkEvent
  | hashOp (alg : Algorithm)
  | verifyOp (alg : Algorithm)
  | complexityOp
deriving DecidableEq, Repr

/-- The self-describing encoded hash string, in parsed form.  Each constructor
records what the corresponding library embeds in its standard encoding
(algorithm tag, parameters, salt, digest); the digest is modelled ideally by
the exact material the source hands the library.  `malformed` stands for a
string that parses under no scheme. -/
inductive EncodedHash
  | bcryptHash (cost : Nat) (salt : Nat) (material : Bytes)
  | argon2Hash (secret : Option Bytes) (salt : Nat) (material : Bytes)
  | pbkdf2Hash (salt : Nat) (material : Bytes)
  | malformed
deriving DecidableEq, Repr

/-- Mirrors `Algorithm::hash_blocking`.  For bcrypt and pbkdf2 the pepper (when
present) is appended to a copy of the password buffer; for argon2id the pepper
is passed as the instance's secret key.  The salt is drawn from the
caller-supplied randomness source.  The bcrypt cost defaults to 12 when
unspecified.  In the ideal library model hashing never fails. -/
def Algorithm.hash_blocking (alg : Algorithm) (rng : Nat) (password : Bytes)
    (pepper : Option Bytes) : Except PasswordError EncodedHash × List WorkEvent :=
  match alg with
  | .bcrypt cost =>
      let material := password ++ pepper.getD []
      let salt := rng
      (Except.ok (.bcryptHash (cost.getD 12) salt material), [.hashOp (.bcrypt cost)])
  | .argon2id =>
      let salt := rng
      (Except.ok (.argon2Hash pepper salt password), [.hashOp .argon2id])
  | .pbkdf2 =>
      let material := password ++ pepper.getD []
      let salt := rng
      (Except.ok (.pbkdf2Hash salt material), [.hashOp .pbkdf2])

/-- Mirrors `Algorithm::verify_blocking`.  Each branch prepares the material
exactly as `hash_blocking` does and asks the library to verify; the library
model succeeds exactly when the encoded hash was produced from the same
material (and, for argon2id, the same secret key), and fails with the
indistinguishable verification-failed condition otherwise (wrong password,
wrong pepper, wrong algorithm, or malformed encoding). -/
def Algorithm.verify_blocking (alg : Algorithm) (hashed_password : EncodedHash)
    (password : Bytes) (pepper : Option Bytes) :
    Except PasswordError Unit × List WorkEvent :=
  match alg with
  | .bcrypt cost =>
      let material := password ++ pepper.getD []
      match hashed_password with
      | .bcryptHash _ _ m =>
          (if m = material then Except.ok () else Except.error .verificationFailed,
           [.verifyOp (.bcrypt cost)])
      | _ => (Except.error .verificationFailed, [.verifyOp (.bcrypt cost)])
  | .argon2id =>
      match hashed_password with
      | .argon2Hash secret _ m =>
          (if secret = pepper ∧ m = password then Except.ok ()
           else Except.error .verificationFailed, [.verifyOp .argon2id])
      | _ => (Except.error .verificationFailed, [.verifyOp .argon2id])
  | .pbkdf2 =>
      let material := password ++ pepper.getD []
      match hashed_password with
      | .pbkdf2Hash _ m =>
          (if m = material then Except.ok () else Except.error .verificationFailed,
           [.verifyOp .pbkdf2])
      | _ => (Except.error .verificationFailed, [.verifyOp .pbkdf2])

/-- Mirrors the `Hasher` struct: an algorithm with an optional pepper. -/
structure Hasher where
  algorithm : Algorithm
  pepper : Option Bytes
deriving DecidableEq, Repr

/-- Mirrors `Hasher::bcrypt`. -/
def Hasher.bcrypt (cost : Option Nat) (pepper : Option Bytes) : Hasher :=
  { algorithm := .bcrypt cost, pepper := pepper }

/-- Mirrors `Hasher::argon2id`. -/
def Hasher.argon2id (pepper : Option Bytes) : Hasher :=
  { algorithm := .argon2id, pepper := pepper }

/-- Mirrors `Hasher::pbkdf2`. -/
def Hasher.pbkdf2 (pepper : Option Bytes) : Hasher :=
  { algorithm := .pbkdf2, pepper := pepper }

/-- Mirrors `Hasher::hash_blocking`: forwards to the algorithm with the
hasher's pepper. -/
def Hasher.hash_blocking (h : Hasher) (rng : Nat) (password : Bytes) :
    Except PasswordError EncodedHash × List WorkEvent :=
  h.algorithm.hash_blocking rng password h.pepper

/-- Mirrors `Hasher::verify_blocking`: forwards to the algorithm with the
hasher's pepper. -/
def Hasher.verify_blocking (h : Hasher) (hashed_password : EncodedHash)
    (password : Bytes) : Except PasswordError Unit × List WorkEvent :=
  h.algorithm.verify_blocking hashed_password password h.pepper

/-- Mirrors `mas_config::RestAuthProviderConfig`: opaque configuration threaded
through the manager and never interpreted by this core. -/
structure RestAuthProviderConfig where
  url : String
deriving DecidableEq, Repr

/-- Lookup in the model of `HashMap<SchemeVersion, Hasher>` built by
`Iterator::collect`: collecting inserts pairs in order and a later insert for
the same key overwrites an earlier one, so lookup finds the last matching
entry of the underlying list. -/
def hashMapGet (m : List (SchemeVersion × Hasher)) (k : SchemeVersion) : Option Hasher :=
  (m.reverse.find? (fun p => p.1 == k)).map Prod.snd

/-- Mirrors the `InnerPasswordManager` struct.  `other_hashers` keeps the
insertion-ordered list the `HashMap` was collected from; all lookups go
through `hashMapGet`. -/
structure InnerPasswordManager where
  minimum_complexity : Nat
  current_hasher : Hasher
  current_version : SchemeVersion
  other_hashers : List (SchemeVersion × Hasher)
  rest_auth_provider : Option RestAuthProviderConfig
deriving DecidableEq, Repr

/-- Mirrors the `PasswordManager` struct: an optional inner manager (the `Arc`
sharing layer is invisible to the semantics). -/
structure PasswordManager where
  inner : Option InnerPasswordManager
deriving DecidableEq, Repr

/-- Mirrors `PasswordManager::new`: the first item of the iterator becomes the
current (version, hasher); the remaining items are collected into the legacy
map; an empty iterator is a construction error. -/
def PasswordManager.new (minimum_complexity : Nat)
    (rest_auth_provider : Option RestAuthProviderConfig)
    (iter : List (SchemeVersion × Hasher)) : Except PasswordError PasswordManager :=
  match iter with
  | [] => Except.error .constructionError
  | (current_version, current_hasher) :: rest =>
      Except.ok { inner := some {
        minimum_complexity := minimum_complexity,
        current_hasher := current_hasher,
        current_version := current_version,
        other_hashers := rest,
        rest_auth_provider := rest_auth_provider } }

/-- Mirrors `PasswordManager::disabled`. -/
def PasswordManager.disabled : PasswordManager := { inner := none }

/-- Mirrors `PasswordManager::is_enabled`. -/
def PasswordManager.is_enabled (m : PasswordManager) : Bool := m.inner.isSome

/-- Mirrors `PasswordManager::get_inner`: the inner manager, or the
manager-disabled error. -/
def PasswordManager.get_inner (m : PasswordManager) :
    Except PasswordError InnerPasswordManager :=
  match m.inner with
  | some inner => Except.ok inner
  | none => Except.error .managerDisabled

/-- Model of the zxcvbn strength estimator (`zxcvbn::zxcvbn` with an empty
user-input dictionary): a pure function of the password whose score is an
integer in the range 0 to 4 — the library's `Score` enum has exactly the
values 0,1,2,3,4, which the model enforces with the final `min`. -/
def zxcvbnScore (password : String) : Nat :=
  min (password.length / 4) 4

/-- Mirrors `PasswordManager::is_password_complex_enough`: resolves the inner
manager first (failing when disabled, before any estimation), then compares
the zxcvbn score against the configured minimum. -/
def PasswordManager.is_password_complex_enough (m : PasswordManager)
    (password : String) : Except PasswordError Bool × List WorkEvent :=
  match m.get_inner with
  | Except.error e => (Except.error e, [])
  | Except.ok inner =>
      let score := zxcvbnScore password
      (Except.ok (decide (inner.minimum_complexity ≤ score)), [.complexityOp])

/-- Model of `rand_chacha::ChaChaRng::from_rng`: derives a self-contained
seeded generator from the caller's randomness source.  In the seed model the
derived generator is the seed itself. -/
def chaChaFromRng (rng : Nat) : Nat := rng

/-- Mirrors `PasswordManager::hash`: resolves the inner manager (failing when
disabled), reseeds a future-local generator from the caller's source, copies
the current version, and runs the current hasher's blocking hash, returning
the current version alongside the produced hash. -/
def PasswordManager.hash (m : PasswordManager) (rng : Nat) (password : Bytes) :
    Except PasswordError (SchemeVersion × EncodedHash) × List WorkEvent :=
  match m.get_inner with
  | Except.error e => (Except.error e, [])
  | Except.ok inner =>
      let rng := chaChaFromRng rng
      let version := inner.current_version
      let hp := inner.current_hasher.hash_blocking rng password
      match hp.1 with
      | Except.error e => (Except.error e, hp.2)
      | Except.ok hashed => (Except.ok (version, hashed), hp.2)

/-- Mirrors `PasswordManager::verify`: resolves the inner manager (failing when
disabled), resolves the scheme version to the current hasher when it matches
the current version and otherwise looks it up in the legacy map (failing with
scheme-not-found when absent, before any cryptographic work), then runs the
hasher's blocking verification. -/
def PasswordManager.verify (m : PasswordManager) (scheme : SchemeVersion)
    (password : Bytes) (hashed_password : EncodedHash) :
    Except PasswordError Unit × List WorkEvent :=
  match m.get_inner with
  | Except.error e => (Except.error e, [])
  | Except.ok inner =>
      let hasherRes : Except PasswordError Hasher :=
        if scheme = inner.current_version then Except.ok inner.current_hasher
        else
          match hashMapGet inner.other_hashers scheme with
          | some h => Except.ok h
          | none => Except.error .schemeNotFound
      match hasherRes with
      | Except.error e => (Except.error e, [])
      | Except.ok hasher => hasher.verify_blocking hashed_password password

/-- Mirrors `PasswordManager::verify_and_upgrade`: resolves the inner manager
(failing when disabled); when the presented scheme differs from the current
version, speculatively hashes a copy of the password under the current scheme;
joins that with the verification of the presented credential; propagates the
verification failure first (discarding any speculative hash); on successful
verification transposes the optional speculative result, so the current
(version, hash) pair is returned exactly when an upgrade was computed. -/
def PasswordManager.verify_and_upgrade (m : PasswordManager) (rng : Nat)
    (scheme : SchemeVersion) (password : Bytes) (hashed_password : EncodedHash) :
    Except PasswordError (Option (SchemeVersion × EncodedHash)) × List WorkEvent :=
  match m.get_inner with
  | Except.error e => (Except.error e, [])
  | Except.ok inner =>
      let speculative :
          Option (Except PasswordError (SchemeVersion × EncodedHash)) × List WorkEvent :=
        if scheme ≠ inner.current_version then
          (some (m.hash rng password).1, (m.hash rng password).2)
        else (none, [])
      let verifyP := m.verify scheme password hashed_password
      let evs := speculative.2 ++ verifyP.2
      match verifyP.1 with
      | Except.error e => (Except.error e, evs)
      | Except.ok () =>
          match speculative.1 with
          | none => (Except.ok none, evs)
          | some (Except.error e) => (Except.error e, evs)
          | some (Except.ok vh) => (Except.ok (some vh), evs)

/-- Mirrors `PasswordManager::get_rest_auth_provider`: resolves the inner
manager (failing when disabled) and returns its configuration value. -/
def PasswordManager.get_rest_auth_provider (m : PasswordManager) :
    Except PasswordError (Option RestAuthProviderConfig) × List WorkEvent :=
  match m.get_inner with
  | Except.error e => (Except.error e, [])
  | Except.ok inner => (Except.ok inner.rest_auth_provider, [])

/-! ## Concrete example configuration, used by witnesses and counterexamples -/

/-- A concrete pepper byte string. -/
def pepperEx : Bytes := [10, 20]

/-- A concrete bcrypt hasher with cost 10 and a pepper, as in the source's
test configuration. -/
def hasherBcryptEx : Hasher := Hasher.bcrypt (some 10) (some pepperEx)

/-- A concrete argon2id hasher without a pepper. -/
def hasherArgonEx : Hasher := Hasher.argon2id none

/-- A concrete enabled manager: argon2id is current under version 2, the
bcrypt scheme is legacy under version 1. -/
def mgrEx : PasswordManager :=
  { inner := some {
      minimum_complexity := 0,
      current_hasher := hasherArgonEx,
      current_version := 2,
      other_hashers := [(1, hasherBcryptEx)],
      rest_auth_provider := none } }

/-- A concrete password byte buffer. -/
def pwEx : Bytes := [104, 117, 110]

/-- A different (wrong) password byte buffer. -/
def wrongPwEx : Bytes := [1, 2, 3]

/-- The encoded hash of `pwEx` under the legacy bcrypt scheme of `mgrEx`
(salt 5), exactly what `hasherBcryptEx.hash_blocking 5 pwEx` produces. -/
def oldHashEx : EncodedHash := .bcryptHash 10 5 (pwEx ++ pepperEx)

/-! ## Helper lemmas -/

/-- Hashing never fails in the ideal library model, and the hash it produces
verifies against the same password under the same hasher. -/
theorem Hasher.hash_blocking_ok (h : Hasher) (rng : Nat) (pw : Bytes) :
    ∃ e : EncodedHash, (h.hash_blocking rng pw).1 = Except.ok e
      ∧ (h.verify_blocking e pw).1 = Except.ok () := by
  obtain ⟨alg, pepper⟩ := h
  cases alg <;>
    exact ⟨_, rfl, by simp [Hasher.verify_blocking, Algorithm.verify_blocking]⟩

/-- The trace of a blocking verification is a single library-verify
invocation: in particular it contains no hash invocation. -/
theorem Hasher.verify_blocking_events (h : Hasher) (hp : EncodedHash) (pw : Bytes) :
    (h.verify_blocking hp pw).2 = [WorkEvent.verifyOp h.algorithm] := by
  obtain ⟨alg, pepper⟩ := h
  cases alg <;> cases hp <;> simp [Hasher.verify_blocking, Algorithm.verify_blocking]

/-! ## Claims -/

/-- C4: for every supported algorithm, password, optional pepper and
randomness source, verifying the encoded hash produced by hashing that
password with that pepper, against the same password and pepper, succeeds. -/
theorem algorithm_hash_verify_roundtrip (alg : Algorithm) (rng : Nat)
    (password : Bytes) (pepper : Option Bytes) (e : EncodedHash)
    (he : (alg.hash_blocking rng password pepper).1 = Except.ok e) :
    (alg.verify_blocking e password pepper).1 = Except.ok () := by
  have := Hasher.hash_blocking_ok ⟨alg, pepper⟩ rng password
  obtain ⟨e2, he2, hv2⟩ := this
  simp only [Hasher.hash_blocking] at he2
  rw [he2] at he
  cases he
  simpa [Hasher.verify_blocking] using hv2

/-- Witness for C4 at a concrete input: bcrypt with a pepper round-trips. -/
theorem algorithm_hash_verify_roundtrip_witness :
    (Algorithm.verify_blocking (.bcrypt (some 10)) (.bcryptHash 10 5 (pwEx ++ pepperEx))
      pwEx (some pepperEx)).1 = Except.ok () :=
  algorithm_hash_verify_roundtrip (.bcrypt (some 10)) 5 pwEx (some pepperEx) _ rfl

/-- C6: on the disabled manager every operation fails immediately with the
manager-disabled error and performs no work (empty invocation trace). -/
theorem disabled_manager_all_ops (password : String) (rng : Nat)
    (scheme : SchemeVersion) (pw : Bytes) (hashed : EncodedHash) :
    PasswordManager.disabled.is_password_complex_enough password
        = (Except.error .managerDisabled, [])
    ∧ PasswordManager.disabled.hash rng pw = (Except.error .managerDisabled, [])
    ∧ PasswordManager.disabled.verify scheme pw hashed
        = (Except.error .managerDisabled, [])
    ∧ PasswordManager.disabled.verify_and_upgrade rng scheme pw hashed
        = (Except.error .managerDisabled, [])
    ∧ PasswordManager.disabled.get_rest_auth_provider
        = (Except.error .managerDisabled, []) :=
  ⟨rfl, rfl, rfl, rfl, rfl⟩

/-- C5: on an enabled manager, verifying under a scheme version that is
neither current nor in the legacy table fails with scheme-not-found and
performs no cryptographic work (the invocation trace is empty). -/
theorem verify_unknown_scheme (m : PasswordManager) (inner : InnerPasswordManager)
    (hm : m.inner = some inner) (scheme : SchemeVersion) (password : Bytes)
    (hashed : EncodedHash) (hne : scheme ≠ inner.current_version)
    (habs : hashMapGet inner.other_hashers scheme = none) :
    m.verify scheme password hashed = (Except.error .schemeNotFound, []) := by
  simp [PasswordManager.verify, PasswordManager.get_inner, hm, hne, habs]

/-- Witness for C5: verifying with unknown version 3 on the concrete manager
fails with scheme-not-found and an empty trace. -/
theorem verify_unknown_scheme_witness :
    mgrEx.verify 3 pwEx oldHashEx = (Except.error .schemeNotFound, []) :=
  verify_unknown_scheme mgrEx _ rfl 3 pwEx oldHashEx (by decide) (by decide)

/-- Lookup in the collected map misses every version absent from the
underlying list. -/
theorem hashMapGet_eq_none (l : List (SchemeVersion × Hasher)) (v : SchemeVersion)
    (hnd : ∀ p ∈ l, p.1 ≠ v) : hashMapGet l v = none := by
  unfold hashMapGet
  rw [List.find?_eq_none.mpr]
  · rfl
  · intro p hp
    simpa using hnd p (List.mem_reverse.mp hp)

/-- C7: construction fails exactly on the empty collection; on a non-empty
collection the first element becomes the current (version, hasher) and the
remaining elements become the legacy table, where a duplicate version among
the remaining elements shadows every earlier entry for it (last-wins). -/
theorem password_manager_new_spec (minimum_complexity : Nat)
    (rap : Option RestAuthProviderConfig) :
    (PasswordManager.new minimum_complexity rap [] = Except.error .constructionError)
    ∧ (∀ (cv : SchemeVersion) (ch : Hasher) (rest : List (SchemeVersion × Hasher)),
        PasswordManager.new minimum_complexity rap ((cv, ch) :: rest)
          = Except.ok { inner := some {
              minimum_complexity := minimum_complexity, current_hasher := ch,
              current_version := cv, other_hashers := rest,
              rest_auth_provider := rap } })
    ∧ (∀ (l₁ l₂ : List (SchemeVersion × Hasher)) (v : SchemeVersion) (h : Hasher),
        (∀ p ∈ l₂, p.1 ≠ v) → hashMapGet (l₁ ++ (v, h) :: l₂) v = some h) := by
  refine ⟨rfl, fun cv ch rest => rfl, fun l₁ l₂ v h hnd => ?_⟩
  unfold hashMapGet
  rw [List.reverse_append, List.reverse_cons, List.append_assoc, List.find?_append,
    List.find?_eq_none.mpr, Option.none_or, List.find?_append, List.find?_cons_of_pos]
  · rfl
  · simp
  · intro p hp
    simpa using hnd p (List.mem_reverse.mp hp)

/-- Witness for C7 at a concrete input: the later duplicate of version 3 wins
over the earlier one, and the empty collection is rejected. -/
theorem password_manager_new_spec_witness :
    PasswordManager.new 0 none [] = Except.error .constructionError
    ∧ hashMapGet [(5, hasherBcryptEx), (3, hasherBcryptEx), (3, hasherArgonEx)] 3
        = some hasherArgonEx :=
  ⟨(password_manager_new_spec 0 none).1,
   (password_manager_new_spec 0 none).2.2 [(5, hasherBcryptEx), (3, hasherBcryptEx)] []
     3 hasherArgonEx (by simp)⟩

/-- C8 counterexample: constructing from a collection that repeats the current
version succeeds, and the resulting legacy table contains an entry for the
current version itself — the legacy version set is not disjoint from the
current version. -/
theorem registry_disjoint_counterexample :
    PasswordManager.new 0 none [(1, hasherBcryptEx), (1, hasherArgonEx)]
      = Except.ok { inner := some {
          minimum_complexity := 0, current_hasher := hasherBcryptEx,
          current_version := 1, other_hashers := [(1, hasherArgonEx)],
          rest_auth_provider := none } }
    ∧ hashMapGet [(1, hasherArgonEx)] 1 = some hasherArgonEx :=
  ⟨rfl, rfl⟩

/-- C8 amended: exactly one version is current (the single `current_version`
field the constructor fills from the first element), and provided the current
version does not recur among the remaining elements, the legacy table has no
entry for it.  The configuration itself is immutable: every operation of the
embedding consumes the manager read-only and returns only a result and a
trace. -/
theorem registry_invariant_amended (mc : Nat) (rap : Option RestAuthProviderConfig)
    (cv : SchemeVersion) (ch : Hasher) (rest : List (SchemeVersion × Hasher))
    (hnd : ∀ p ∈ rest, p.1 ≠ cv) :
    PasswordManager.new mc rap ((cv, ch) :: rest)
      = Except.ok { inner := some {
          minimum_complexity := mc, current_hasher := ch, current_version := cv,
          other_hashers := rest, rest_auth_provider := rap } }
    ∧ hashMapGet rest cv = none :=
  ⟨rfl, hashMapGet_eq_none rest cv hnd⟩

/-- Witness for the amended C8 at a concrete input: the two-scheme manager
with distinct versions has no legacy entry for the current version 2. -/
theorem registry_invariant_amended_witness :
    PasswordManager.new 0 none [(2, hasherArgonEx), (1, hasherBcryptEx)]
      = Except.ok mgrEx
    ∧ hashMapGet [(1, hasherBcryptEx)] 2 = none :=
  registry_invariant_amended 0 none 2 hasherArgonEx [(1, hasherBcryptEx)] (by decide)

/-- C1: on an enabled manager, verifying-and-upgrading under a non-current
scheme version that resolves to a known legacy hasher, with a password that
verifies against the supplied encoded hash under that hasher, returns the
upgrade pair (current version, new hash), and the new hash subsequently
verifies under the current version. -/
theorem verify_and_upgrade_upgrades (m : PasswordManager)
    (inner : InnerPasswordManager) (hm : m.inner = some inner) (rng : Nat)
    (scheme : SchemeVersion) (password : Bytes) (hashed : EncodedHash)
    (hne : scheme ≠ inner.current_version) (h : Hasher)
    (hfound : hashMapGet inner.other_hashers scheme = some h)
    (hver : (h.verify_blocking hashed password).1 = Except.ok ()) :
    ∃ newHash : EncodedHash,
      (m.verify_and_upgrade rng scheme password hashed).1
        = Except.ok (some (inner.current_version, newHash))
      ∧ (m.verify inner.current_version password newHash).1 = Except.ok () := by
  obtain ⟨e, he, hve⟩ :=
    Hasher.hash_blocking_ok inner.current_hasher (chaChaFromRng rng) password
  refine ⟨e, ?_, ?_⟩
  · have hhash : (m.hash rng password).1 = Except.ok (inner.current_version, e) := by
      simp [PasswordManager.hash, PasswordManager.get_inner, hm, he]
    have hverify : (m.verify scheme password hashed).1 = Except.ok () := by
      simp [PasswordManager.verify, PasswordManager.get_inner, hm, hne, hfound, hver]
    simp [PasswordManager.verify_and_upgrade, PasswordManager.get_inner, hm, hne,
      hhash, hverify]
  · simp [PasswordManager.verify, PasswordManager.get_inner, hm, hve]

/-- Witness for C1 at a concrete input: upgrading the legacy bcrypt credential
of `mgrEx` yields the argon2id hash of the same password under the current
version 2, and that hash verifies. -/
theorem verify_and_upgrade_upgrades_witness :
    (mgrEx.verify_and_upgrade 7 1 pwEx oldHashEx).1
      = Except.ok (some (2, EncodedHash.argon2Hash none 7 pwEx))
    ∧ (mgrEx.verify 2 pwEx (EncodedHash.argon2Hash none 7 pwEx)).1 = Except.ok () := by
  obtain ⟨nh, h1, h2⟩ := verify_and_upgrade_upgrades mgrEx _ rfl 7 1 pwEx oldHashEx
    (by decide) hasherBcryptEx (by decide) (by decide)
  have hval : (mgrEx.verify_and_upgrade 7 1 pwEx oldHashEx).1
      = Except.ok (some (2, EncodedHash.argon2Hash none 7 pwEx)) := by decide
  have hpin := hval.symm.trans h1
  simp only [Except.ok.injEq, Option.some.injEq, Prod.mk.injEq, true_and] at hpin
  rw [← hpin] at h2
  exact ⟨hval, h2⟩

/-- C2 amended: whenever verification of the presented credential fails with
the verification-failed condition, verify-and-upgrade propagates exactly that
failure; the speculative new-scheme hash (which is computed concurrently when
the presented version is not current) is never part of the result. -/
theorem verify_and_upgrade_wrong_password (m : PasswordManager) (rng : Nat)
    (scheme : SchemeVersion) (password : Bytes) (hashed : EncodedHash)
    (hver : (m.verify scheme password hashed).1 = Except.error .verificationFailed) :
    (m.verify_and_upgrade rng scheme password hashed).1
      = Except.error .verificationFailed := by
  obtain ⟨inner⟩ := m
  cases inner with
  | none => simp [PasswordManager.verify, PasswordManager.get_inner] at hver
  | some inner =>
      simp [PasswordManager.verify_and_upgrade, PasswordManager.get_inner, hver]

/-- C2 counterexample: with a wrong password presented under the non-current
version 1, the operation does return the verification failure, but a
speculative hash under the current scheme is still computed — the trace
contains a hash invocation — refuting the part of the claim stating that no
hash is computed. -/
theorem verify_and_upgrade_wrong_password_computes_hash :
    (mgrEx.verify_and_upgrade 7 1 wrongPwEx oldHashEx).1
      = Except.error .verificationFailed
    ∧ WorkEvent.hashOp .argon2id ∈ (mgrEx.verify_and_upgrade 7 1 wrongPwEx oldHashEx).2 := by
  decide

/-- Witness for the amended C2 at a concrete input: the wrong password under
the legacy version 1 of `mgrEx` makes verify-and-upgrade fail with the
verification-failed condition. -/
theorem verify_and_upgrade_wrong_password_witness :
    (mgrEx.verify_and_upgrade 7 1 wrongPwEx oldHashEx).1
      = Except.error .verificationFailed :=
  verify_and_upgrade_wrong_password mgrEx 7 1 wrongPwEx oldHashEx (by decide)

/-- C3: on an enabled manager, verifying-and-upgrading under the current
version performs no speculative hash (the invocation trace contains no hash
invocation — only the verification runs), and on successful verification the
result is the no-upgrade answer. -/
theorem verify_and_upgrade_current (m : PasswordManager)
    (inner : InnerPasswordManager) (hm : m.inner = some inner) (rng : Nat)
    (password : Bytes) (hashed : EncodedHash) :
    (∀ a : Algorithm, WorkEvent.hashOp a ∉
        (m.verify_and_upgrade rng inner.current_version password hashed).2)
    ∧ ((m.verify inner.current_version password hashed).1 = Except.ok () →
        (m.verify_and_upgrade rng inner.current_version password hashed).1
          = Except.ok none) := by
  have hveq : m.verify inner.current_version password hashed
      = inner.current_hasher.verify_blocking hashed password := by
    simp [PasswordManager.verify, PasswordManager.get_inner, hm]
  constructor
  · intro a
    rcases hv : (inner.current_hasher.verify_blocking hashed password).1 with e | u
    · simp [PasswordManager.verify_and_upgrade, PasswordManager.get_inner, hm, hveq, hv,
        Hasher.verify_blocking_events]
    · cases u
      simp [PasswordManager.verify_and_upgrade, PasswordManager.get_inner, hm, hveq, hv,
        Hasher.verify_blocking_events]
  · intro hok
    rw [hveq] at hok
    simp [PasswordManager.verify_and_upgrade, PasswordManager.get_inner, hm, hveq, hok]

/-- Witness for C3 at a concrete input: under the current version 2 of
`mgrEx` no hash invocation appears in the trace, and a matching credential
yields the no-upgrade answer. -/
theorem verify_and_upgrade_current_witness :
    WorkEvent.hashOp .argon2id ∉
        (mgrEx.verify_and_upgrade 7 2 pwEx (EncodedHash.argon2Hash none 9 pwEx)).2
    ∧ (mgrEx.verify_and_upgrade 7 2 pwEx (EncodedHash.argon2Hash none 9 pwEx)).1
        = Except.ok none :=
  ⟨(verify_and_upgrade_current mgrEx _ rfl 7 pwEx (EncodedHash.argon2Hash none 9 pwEx)).1
      .argon2id,
   (verify_and_upgrade_current mgrEx _ rfl 7 pwEx (EncodedHash.argon2Hash none 9 pwEx)).2
      (by decide)⟩

/-- C10: construction accepts any minimum-complexity value without validating
the documented 0 to 4 range, and when the configured minimum exceeds 4 the
complexity gate rejects every password, because the estimator's score never
exceeds 4. -/
theorem min_complexity_above_four (mc : Nat) (rap : Option RestAuthProviderConfig)
    (cv : SchemeVersion) (ch : Hasher) (rest : List (SchemeVersion × Hasher))
    (hmin : 4 < mc) (password : String) :
    PasswordManager.new mc rap ((cv, ch) :: rest)
      = Except.ok (PasswordManager.mk (some (InnerPasswordManager.mk mc ch cv rest rap)))
    ∧ ((PasswordManager.mk (some (InnerPasswordManager.mk mc ch cv rest rap))
        |>.is_password_complex_enough password).1) = Except.ok false := by
  refine ⟨rfl, ?_⟩
  have hscore : zxcvbnScore password ≤ 4 := Nat.min_le_right _ _
  have hnot : ¬ (mc ≤ zxcvbnScore password) := by omega
  simp [PasswordManager.is_password_complex_enough, PasswordManager.get_inner, hnot]

/-- Witness for C10 at a concrete input: minimum 5 is accepted at
construction and rejects a long passphrase. -/
theorem min_complexity_above_four_witness :
    PasswordManager.new 5 none [(1, hasherArgonEx)]
      = Except.ok (PasswordManager.mk
          (some (InnerPasswordManager.mk 5 hasherArgonEx 1 [] none)))
    ∧ ((PasswordManager.mk (some (InnerPasswordManager.mk 5 hasherArgonEx 1 [] none))
        |>.is_password_complex_enough "correct horse battery staple").1)
      = Except.ok false :=
  min_complexity_above_four 5 none 1 hasherArgonEx [] (by decide)
    "correct horse battery staple"
